import Mathlib

/-!
Shallow embedding of `smithay-wallpaper` (`src/lib.rs`) in Lean 4.

The repository is a small helper for a wayland compositor: it loads a still
image (optionally on a background thread), caches a lazily created GPU
texture, and exposes a per-tick frame value with draw / geometry / damage
accessors.  The embedding below follows `src/lib.rs` definition by
definition:

* `next_id` — the process-wide id allocator (lines 48–58), a counter
  (`WALLPAPER_ID`, an `AtomicUsize` that wraps at `2^64`) combined with a
  linear membership scan over the used-id set (`WALLPAPER_IDS`); the whole
  body runs under one mutex, so concurrent calls serialize and the
  sequential model below is faithful.  The unbounded `while` loop is
  rendered with explicit fuel (`findId`); `ids.length + 1` probes are
  provably enough whenever fewer than `2^64` ids are in use.
* `WallpaperState` (lines 62–68) with `check` (89–101), `run` (111–128)
  and `set` (131–134).  A spawned decode thread is abstracted by a task id
  (the `JoinHandle`); an environment `env : Nat → Option LoadResult`
  reports, at poll time, whether the task is still running (`none`) or has
  finished with a result — `some (.success img)` models
  `join() = Ok(Ok(img))`, `some .failure` models the two error shapes
  (`Ok(Err _)` and a panicked thread) that the source collapses into
  `println!("error loading image")`.
* `WallpaperFrame` (lines 71–77) with `WallpaperFrame.draw` (139–167).
  The `Rc<RefCell<Option<Gles2Texture>>>` slot shared between the state
  and every frame is threaded explicitly: `draw` takes the slot's current
  content and returns its new content.  Failure of the texture upload is
  `unwrap`ped in the source, which panics: the model records that as the
  distinguished outcome `DrawOutcome.panicked`.
* the `RenderElement` impl (lines 171–204): `id`, `geometry`,
  `accumulated_damage`, `render_element_draw` (which logs an inner error
  via `slog::error!` and returns `Ok(())`), `z_index`.

The repository's `mod tools` (with `import_bitmap`) is not part of the
provided sources; the renderer's upload primitive is therefore kept
abstract, as a function field of `Renderer` (see its doc comment).
-/

/-- A decoded bitmap (`image::DynamicImage`).  Pixel contents are opaque to
this component; only the identity of the image matters to the claims, so it
is carried as a tag. -/
structure DImage where
  data : Nat
deriving DecidableEq, Repr

/-- A GPU texture handle (`Gles2Texture`); `clone` in the source copies the
handle, so value equality models handle identity. -/
structure Texture where
  handle : Nat
deriving DecidableEq, Repr

/-- A GL error value (`Gles2Error`). -/
structure GlErr where
  code : Nat
deriving DecidableEq, Repr

/-- An upload error from the bitmap-import primitive. -/
structure UploadErr where
  code : Nat
deriving DecidableEq, Repr

/-- Result of one finished decode task: `join() = Ok(Ok(img))` is
`success img`; `Ok(Err _)` and a panicked thread are both `failure`
(the source treats them identically, printing "error loading image"). -/
inductive LoadResult where
  | success (img : DImage)
  | failure
deriving DecidableEq, Repr

/-- A rectangle with integer coordinates (`smithay::utils::Rectangle<i32, _>`);
the `Logical` / `Physical` phantom parameter does not change the numeric
content and is dropped. -/
structure Rect where
  x : Int
  y : Int
  w : Int
  h : Int
deriving DecidableEq, Repr

/-- `Rectangle::to_physical(scale)` scales location and size. -/
def Rect.toPhysical (r : Rect) (scale : Int) : Rect :=
  ⟨r.x * scale, r.y * scale, r.w * scale, r.h * scale⟩

/-- A 2-D size (`smithay::utils::Size<i32, Physical>`). -/
structure Size2 where
  w : Int
  h : Int
deriving DecidableEq, Repr

/-- The GPU renderer handle (`Gles2Renderer`).  Its only capability used by
this crate is the texture upload.

Modelled from the spec: the crate's `tools::import_bitmap` (module `tools`
is not among the provided sources) "converts the bitmap to the renderer's
required channel order, uploads it as a new GPU texture sized to
`targetSize`", and may fail with an upload error; it is kept abstract as a
function from the decoded image and target size to a texture or an error. -/
structure Renderer where
  upload : DImage → Size2 → Except UploadErr Texture

/-- The in-progress frame handle (`Gles2Frame`): its one capability used
here is `render_texture_at`, which issues the textured-quad draw and may
fail with a `Gles2Error`.  All other arguments of `render_texture_at`
(position `(0,0)`, scale 1, `Transform::Normal`, the full-buffer clip
rectangle, opacity 1.0) are constants in the source and do not influence
success, so the primitive is abstracted by its result on the texture. -/
structure GFrame where
  renderTex : Texture → Except GlErr Unit

/-- Outcome of a call to `WallpaperFrame::draw`: normal return `Ok(())`,
error return `Err e`, or a panic (the source `unwrap`s the upload result,
aborting the thread/process on upload failure). -/
inductive DrawOutcome where
  | ok
  | err (e : GlErr)
  | panicked
deriving DecidableEq, Repr

/-- Everything one `WallpaperFrame::draw` call produces: the new content of
the shared texture slot, the number of upload attempts made
(calls into `tools::import_bitmap`), the texture actually passed to
`render_texture_at` (if any), and the outcome. -/
structure DrawRes where
  slot : Option Texture
  uploads : Nat
  rendered : Option Texture
  outcome : DrawOutcome
deriving DecidableEq, Repr

/-! ### The id allocator (`next_id`, lib.rs 48–58) -/

/-- `usize::MAX + 1`: the `AtomicUsize` counter wraps modulo `2^64`. -/
def idModulus : Nat := 2 ^ 64

/-- The loop of `next_id`: `id = WALLPAPER_ID.fetch_add(1); while ids
contains id { id = WALLPAPER_ID.fetch_add(1) }`.  `c` is the counter value
about to be returned by the next `fetch_add`; on success the chosen id and
the post-loop counter are returned.  The source loop is unbounded; here it
carries explicit fuel, and `next_id` passes fuel that is proved sufficient
whenever fewer than `2^64` ids are in use. -/
def findId : Nat → Nat → List Nat → Option (Nat × Nat)
  | 0, _, _ => none
  | fuel + 1, c, ids =>
    if c ∈ ids then findId fuel ((c + 1) % idModulus) ids
    else some (c, (c + 1) % idModulus)

/-- The process-wide registry: the `WALLPAPER_ID` counter and the
`WALLPAPER_IDS` set (a `HashSet` probed by a linear `iter().any` scan,
modelled as a list). -/
structure Registry where
  counter : Nat
  ids : List Nat
deriving DecidableEq, Repr

/-- `next_id()` (lib.rs 48–58): under the `WALLPAPER_IDS` mutex, fetch-add
the counter until an unused id is found, insert it into the set and return
it.  `none` models non-termination of the scan, which the theorems below
rule out while fewer than `2^64` ids are in use. -/
def next_id (reg : Registry) : Option (Nat × Registry) :=
  match findId (reg.ids.length + 1) reg.counter reg.ids with
  | none => none
  | some (id, c') => some (id, ⟨c', id :: reg.ids⟩)

/-- `n` successive `next_id` allocations, returning the ids in call order
together with the final registry. -/
def allocN : Registry → Nat → Option (List Nat × Registry)
  | reg, 0 => some ([], reg)
  | reg, n + 1 =>
    match next_id reg with
    | none => none
    | some (id, reg') =>
      match allocN reg' n with
      | none => none
      | some (ids, reg'') => some (id :: ids, reg'')

/-! ### The state container (`WallpaperState`, lib.rs 62–135) -/

/-- `WallpaperState` (lib.rs 62–68): the instance id, the optional tracked
decode task (`join : Option<JoinHandle<…>>`, the handle abstracted by a
task id), the current decoded image, and the shared texture slot
(`Rc<RefCell<Option<Gles2Texture>>>`, carried here by value and threaded
explicitly through `draw`). -/
structure WallpaperState where
  id : Nat
  join : Option Nat
  image : Option DImage
  texture : Option Texture

/-- `WallpaperState::new()` (lib.rs 81–86): allocate an id, all other
fields default (`None`). -/
def WallpaperState.new (reg : Registry) : Option (WallpaperState × Registry) :=
  match next_id reg with
  | none => none
  | some (id, reg') => some (⟨id, none, none, none⟩, reg')

/-- `WallpaperFrame` (lib.rs 71–77): the owning state's id, the physical
area, the buffer size, and the image snapshot.  The shared texture slot it
also references is passed to `draw` explicitly. -/
structure WallpaperFrame where
  state_id : Nat
  area : Rect
  size : Size2
  image : Option DImage

/-- `WallpaperState::check()` (lib.rs 89–101): take the tracked handle if
any; if the thread is still running put it back unchanged; otherwise join
it — `Ok(Ok(image))` replaces the current image, any other shape prints
"error loading image" and leaves the image as it was.  `env tid` is the
task's status at this poll: `none` while running, `some res` once
finished. -/
def WallpaperState.check (s : WallpaperState) (env : Nat → Option LoadResult) :
    WallpaperState :=
  match s.join with
  | none => s
  | some tid =>
    match env tid with
    | none => s
    | some (.success img) => { s with join := none, image := some img }
    | some .failure => { s with join := none }

/-- `WallpaperState::run(area, size)` (lib.rs 111–128): convert `area` to
physical coordinates at scale 1, poll the decode task, and snapshot the
current image and shared texture slot into a `WallpaperFrame`. -/
def WallpaperState.run (s : WallpaperState) (env : Nat → Option LoadResult)
    (area : Rect) (size : Size2) : WallpaperState × WallpaperFrame :=
  let areaP := area.toPhysical 1
  let s' := s.check env
  (s', ⟨s'.id, areaP, size, s'.image⟩)

/-- `WallpaperState::set(path)` (lib.rs 131–134): spawn a decode thread for
the path and track its handle, replacing any previously tracked handle.
`tid` is the fresh task id of the spawned thread. -/
def WallpaperState.set (s : WallpaperState) (tid : Nat) : WallpaperState :=
  { s with join := some tid }

/-! ### Drawing (`WallpaperFrame::draw`, lib.rs 139–167) -/

/-- `WallpaperFrame::draw(r, frame)` (lib.rs 139–167).  With no image the
call is a successful no-op.  Otherwise the shared slot is consulted: a
cached texture is cloned and reused; an empty slot triggers one
`tools::import_bitmap` upload whose result is `unwrap`ped — success stores
the handle, failure panics (the slot keeps its old content, but control
never returns).  Finally `render_texture_at` draws the texture and its
result is returned. -/
def WallpaperFrame.draw (f : WallpaperFrame) (r : Renderer) (gf : GFrame)
    (slot : Option Texture) : DrawRes :=
  match f.image with
  | none => ⟨slot, 0, none, .ok⟩
  | some img =>
    match slot with
    | some t =>
      match gf.renderTex t with
      | .ok _ => ⟨some t, 0, some t, .ok⟩
      | .error e => ⟨some t, 0, some t, .err e⟩
    | none =>
      match r.upload img f.size with
      | .error _ => ⟨none, 1, none, .panicked⟩
      | .ok t =>
        match gf.renderTex t with
        | .ok _ => ⟨some t, 1, some t, .ok⟩
        | .error e => ⟨some t, 1, some t, .err e⟩

/-! ### The `RenderElement` impl (lib.rs 171–204) -/

/-- `RenderElement::id` (lib.rs 172–174). -/
def WallpaperFrame.elemId (f : WallpaperFrame) : Nat := f.state_id

/-- `RenderElement::geometry` (lib.rs 176–178): the source returns
`Rectangle::from_loc_and_size((0, 0), (0, 0))`. -/
def WallpaperFrame.geometry (_f : WallpaperFrame) : Rect := ⟨0, 0, 0, 0⟩

/-- `RenderElement::accumulated_damage` (lib.rs 180–185): the source
returns `vec![]`.  The `Option<SpaceOutputTuple>` argument is opaque. -/
def WallpaperFrame.accumulated_damage (_f : WallpaperFrame)
    (_for_values : Option Unit) : List Rect := []

/-- `RenderElement::z_index` (lib.rs 201–203). -/
def WallpaperFrame.z_index (_f : WallpaperFrame) : Nat := 0

/-- Result of the `RenderElement::draw` adaptation: the new slot content,
the `Gles2Error`s passed to `slog::error!`, and the returned value. -/
structure ElemDrawRes where
  slot : Option Texture
  log : List GlErr
  outcome : DrawOutcome
deriving DecidableEq, Repr

/-- `RenderElement::draw` (lib.rs 187–199): call `WallpaperFrame::draw`;
when it returns an error, log it and return `Ok(())`; a panic in the inner
call propagates. -/
def WallpaperFrame.render_element_draw (f : WallpaperFrame) (r : Renderer)
    (gf : GFrame) (slot : Option Texture) : ElemDrawRes :=
  let d := f.draw r gf slot
  match d.outcome with
  | .ok => ⟨d.slot, [], .ok⟩
  | .err e => ⟨d.slot, [e], .ok⟩
  | .panicked => ⟨d.slot, [], .panicked⟩

/-! ### Operation sequences on one container -/

/-- One host-side operation on a container: `set` (requestLoad, with the
spawned task's id), `run` (produceFrame, with the task environment at that
poll), or drawing the most recently produced frame against the shared
texture slot. -/
inductive Op where
  | setOp (tid : Nat)
  | runOp (env : Nat → Option LoadResult) (area : Rect) (size : Size2)
  | drawOp (r : Renderer) (gf : GFrame)

/-- Execution state: the container plus the frames produced so far
(newest first), all sharing the container's texture slot. -/
structure ExecSt where
  st : WallpaperState
  frames : List WallpaperFrame

/-- Apply one operation. -/
def stepOp (e : ExecSt) : Op → ExecSt
  | .setOp tid => { e with st := e.st.set tid }
  | .runOp env area size =>
    let p := e.st.run env area size
    { st := p.1, frames := p.2 :: e.frames }
  | .drawOp r gf =>
    match e.frames with
    | [] => e
    | f :: _ =>
      let d := f.draw r gf e.st.texture
      { e with st := { e.st with texture := d.slot } }

/-- Run a list of operations from a container with no produced frames. -/
def execOps (s : WallpaperState) (ops : List Op) : ExecSt :=
  ops.foldl stepOp ⟨s, []⟩

/-! ### Allocator lemmas -/

theorem idModulus_pos : 0 < idModulus := by norm_num [idModulus]

/-- An id returned by the scan loop was not in the used-id set. -/
theorem findId_not_mem : ∀ (fuel c : Nat) (ids : List Nat) (id c' : Nat),
    findId fuel c ids = some (id, c') → id ∉ ids
  | 0, c, ids, id, c', h => by simp [findId] at h
  | fuel + 1, c, ids, id, c', h => by
    by_cases hc : c ∈ ids
    · simp only [findId, if_pos hc] at h
      exact findId_not_mem fuel _ ids id c' h
    · simp only [findId, if_neg hc, Option.some.injEq, Prod.mk.injEq] at h
      obtain ⟨rfl, rfl⟩ := h
      exact hc

/-- The counter left behind by a successful scan is reduced mod `2^64`. -/
theorem findId_counter_lt : ∀ (fuel c : Nat) (ids : List Nat) (id c' : Nat),
    findId fuel c ids = some (id, c') → c' < idModulus
  | 0, c, ids, id, c', h => by simp [findId] at h
  | fuel + 1, c, ids, id, c', h => by
    by_cases hc : c ∈ ids
    · simp only [findId, if_pos hc] at h
      exact findId_counter_lt fuel _ ids id c' h
    · simp only [findId, if_neg hc, Option.some.injEq, Prod.mk.injEq] at h
      obtain ⟨rfl, rfl⟩ := h
      exact Nat.mod_lt _ idModulus_pos

/-- If the scan runs out of fuel, every probed value was already used. -/
theorem findId_none_mem : ∀ (fuel c : Nat) (ids : List Nat), c < idModulus →
    findId fuel c ids = none → ∀ k, k < fuel → (c + k) % idModulus ∈ ids := by
  intro fuel
  induction fuel with
  | zero => intro c ids _ _ k hk; omega
  | succ n ih =>
    intro c ids hc h k hk
    by_cases hm : c ∈ ids
    · simp only [findId, if_pos hm] at h
      rcases Nat.eq_zero_or_pos k with rfl | hk0
      · simpa [Nat.mod_eq_of_lt hc] using hm
      · obtain ⟨k', rfl⟩ : ∃ k', k = k' + 1 := ⟨k - 1, by omega⟩
        have hrec := ih ((c + 1) % idModulus) ids (Nat.mod_lt _ idModulus_pos) h k' (by omega)
        rwa [Nat.mod_add_mod, show c + 1 + k' = c + (k' + 1) by ring] at hrec
    · simp [findId, if_neg hm] at h

/-- `n` consecutive probe values are distinct mod `2^64` while `n ≤ 2^64`,
so a used-id set they all fall into has at least `n` distinct elements. -/
theorem probe_card {c n : Nat} {ids : List Nat} (hn : n ≤ idModulus)
    (h : ∀ k, k < n → (c + k) % idModulus ∈ ids) : n ≤ ids.toFinset.card := by
  have hcard : n = (Finset.range n).card := (Finset.card_range n).symm
  rw [hcard]
  apply Finset.card_le_card_of_injOn (fun k => (c + k) % idModulus)
  · intro k hk
    rw [List.mem_toFinset]
    exact h k (Finset.mem_range.mp hk)
  · intro k1 hk1 k2 hk2 heq
    have h1 : k1 < n := Finset.mem_range.mp hk1
    have h2 : k2 < n := Finset.mem_range.mp hk2
    have hmod : k1 % idModulus = k2 % idModulus :=
      Nat.ModEq.add_left_cancel' c heq
    rwa [Nat.mod_eq_of_lt (by omega), Nat.mod_eq_of_lt (by omega)] at hmod

/-- Fuel sufficiency: while fewer than `2^64` ids are in use (the
situation `debug_assert!(ids.len() != usize::MAX)` guards), the unbounded
source loop terminates within `ids.length + 1` probes, so the fueled model
allocates successfully; the chosen id is fresh and gets inserted. -/
theorem next_id_some {reg : Registry} (hc : reg.counter < idModulus)
    (hlen : reg.ids.length < idModulus) :
    ∃ id c', next_id reg = some (id, ⟨c', id :: reg.ids⟩) ∧
      id ∉ reg.ids ∧ c' < idModulus := by
  cases hfind : findId (reg.ids.length + 1) reg.counter reg.ids with
  | none =>
    exfalso
    have hall := findId_none_mem _ _ _ hc hfind
    have hcard := probe_card (by omega) hall
    have hle := reg.ids.toFinset_card_le
    omega
  | some p =>
    obtain ⟨id, c'⟩ := p
    refine ⟨id, c', ?_, findId_not_mem _ _ _ _ _ hfind, findId_counter_lt _ _ _ _ _ hfind⟩
    simp [next_id, hfind]

/-- Shape of any successful allocation: the id was unused and is recorded. -/
theorem next_id_shape {reg : Registry} {id : Nat} {reg' : Registry}
    (h : next_id reg = some (id, reg')) :
    id ∉ reg.ids ∧ reg'.ids = id :: reg.ids := by
  unfold next_id at h
  cases hfind : findId (reg.ids.length + 1) reg.counter reg.ids with
  | none => rw [hfind] at h; cases h
  | some p =>
    obtain ⟨i, c'⟩ := p
    rw [hfind] at h
    simp only [Option.some.injEq, Prod.mk.injEq] at h
    obtain ⟨rfl, rfl⟩ := h
    exact ⟨findId_not_mem _ _ _ _ _ hfind, rfl⟩

/-- Main allocation invariant: any successful run of `n` allocations
returns ids that are pairwise distinct, all recorded in the final
registry, and all fresh with respect to the starting registry; the
recorded-id set only grows. -/
theorem allocN_spec : ∀ (n : Nat) (reg : Registry) (l : List Nat) (reg' : Registry),
    allocN reg n = some (l, reg') →
    l.Nodup ∧ (∀ x ∈ reg.ids, x ∈ reg'.ids) ∧
      (∀ x ∈ l, x ∈ reg'.ids) ∧ (∀ x ∈ l, x ∉ reg.ids) := by
  intro n
  induction n with
  | zero =>
    intro reg l reg' h
    simp only [allocN, Option.some.injEq, Prod.mk.injEq] at h
    obtain ⟨rfl, rfl⟩ := h
    exact ⟨List.nodup_nil, fun x hx => hx, by simp, by simp⟩
  | succ m ih =>
    intro reg l reg' h
    cases hna : next_id reg with
    | none => simp [allocN, hna] at h
    | some p =>
      obtain ⟨id, reg1⟩ := p
      cases hrec : allocN reg1 m with
      | none => simp [allocN, hna, hrec] at h
      | some q =>
        obtain ⟨l', reg2⟩ := q
        simp only [allocN, hna, hrec, Option.some.injEq, Prod.mk.injEq] at h
        obtain ⟨rfl, rfl⟩ := h
        obtain ⟨hfresh, hids1⟩ := next_id_shape hna
        obtain ⟨hnd, hgrow, hmem, hnew⟩ := ih reg1 l' reg2 hrec
        have hid1 : id ∈ reg1.ids := by rw [hids1]; exact List.mem_cons_self _ _
        refine ⟨List.nodup_cons.mpr ⟨fun hin => hnew id hin hid1, hnd⟩, ?_, ?_, ?_⟩
        · intro x hx
          exact hgrow x (by rw [hids1]; exact List.mem_cons_of_mem _ hx)
        · intro x hx
          rcases List.mem_cons.mp hx with rfl | hx'
          · exact hgrow x hid1
          · exact hmem x hx'
        · intro x hx
          rcases List.mem_cons.mp hx with rfl | hx'
          · exact hfresh
          · intro hxreg
            exact hnew x hx' (by rw [hids1]; exact List.mem_cons_of_mem _ hxreg)

/-- C3: For every sequence of N State Container constructions (including
constructions interleaved from multiple threads — the whole allocator body
runs under the `WALLPAPER_IDS` mutex, so interleavings serialize into
exactly such a sequence), the N Instance Ids returned by the allocator are
pairwise distinct. -/
theorem next_id_allocations_pairwise_distinct (reg : Registry) (N : Nat)
    (l : List Nat) (reg' : Registry) (h : allocN reg N = some (l, reg')) :
    l.Nodup :=
  (allocN_spec N reg l reg' h).1

/-- Witness for C3: three allocations from the initial registry yield the
distinct ids 0, 1, 2. -/
theorem next_id_allocations_pairwise_distinct_witness :
    allocN ⟨0, []⟩ 3 = some ([0, 1, 2], ⟨3, [2, 1, 0]⟩) ∧
      ([0, 1, 2] : List Nat).Nodup :=
  ⟨by rfl, next_id_allocations_pairwise_distinct ⟨0, []⟩ 3 [0, 1, 2] ⟨3, [2, 1, 0]⟩ (by rfl)⟩

/-! ### Polling and load-replacement lemmas -/

/-- Polling never turns a present image into an absent one. -/
theorem check_image_isSome {s : WallpaperState} (env : Nat → Option LoadResult)
    (h : s.image.isSome) : ((s.check env).image).isSome := by
  rcases hj : s.join with _ | tid
  · simp [WallpaperState.check, hj, h]
  · rcases he : env tid with _ | res
    · simp [WallpaperState.check, hj, he, h]
    · cases res <;> simp [WallpaperState.check, hj, he, h]

/-- C5: For every poll performed during produceFrame (`run`): while the
deferred decode task is still running the container's image is unchanged
and the task remains tracked; a task that finished with an error leaves
the prior image unchanged; only a successful result replaces the image. -/
theorem run_poll_transitions (s : WallpaperState) (env : Nat → Option LoadResult)
    (area : Rect) (size : Size2) (tid : Nat) (h : s.join = some tid) :
    (env tid = none → (s.run env area size).1.image = s.image ∧
      (s.run env area size).1.join = s.join) ∧
    (env tid = some .failure → (s.run env area size).1.image = s.image) ∧
    (∀ img, env tid = some (.success img) →
      (s.run env area size).1.image = some img) := by
  refine ⟨?_, ?_, ?_⟩
  · intro henv
    simp [WallpaperState.run, WallpaperState.check, h, henv]
  · intro henv
    simp [WallpaperState.run, WallpaperState.check, h, henv]
  · intro img henv
    simp [WallpaperState.run, WallpaperState.check, h, henv]

/-- Witness for C5: a container tracking task 5 polls an environment where
task 5 finished successfully with image 7; the image is replaced. -/
theorem run_poll_transitions_witness :
    ((⟨0, some 5, none, none⟩ : WallpaperState).run
        (fun t => if t = 5 then some (.success ⟨7⟩) else none)
        ⟨0, 0, 4, 4⟩ ⟨4, 4⟩).1.image = some ⟨7⟩ :=
  (run_poll_transitions ⟨0, some 5, none, none⟩
      (fun t => if t = 5 then some (.success ⟨7⟩) else none)
      ⟨0, 0, 4, 4⟩ ⟨4, 4⟩ 5 rfl).2.2 ⟨7⟩ (by rfl)

/-- C6: Issuing `set` for task A and then `set` for task B before polling
replaces the tracked task reference with B's (literally forgetting A's
handle), and a poll once B has completed yields B's result — B's image on
success, the prior image on failure — never A's (the environment's answer
for A is unconstrained and unread). -/
theorem set_last_request_wins (s : WallpaperState) (tidA tidB : Nat)
    (env : Nat → Option LoadResult) (resB : LoadResult)
    (henv : env tidB = some resB) :
    ((s.set tidA).set tidB) = s.set tidB ∧
    ((s.set tidA).set tidB).join = some tidB ∧
    (((s.set tidA).set tidB).check env).image =
      (match resB with
       | .success img => some img
       | .failure => s.image) := by
  refine ⟨rfl, rfl, ?_⟩
  cases resB <;> simp [WallpaperState.set, WallpaperState.check, henv]

/-- Witness for C6: requesting task 1 (which would deliver image 10) and
then task 2 (which delivers image 20) before any poll; after both have
completed, the poll installs image 20. -/
theorem set_last_request_wins_witness :
    ((((⟨0, none, none, none⟩ : WallpaperState).set 1).set 2).check
        (fun t => if t = 1 then some (.success ⟨10⟩)
                  else if t = 2 then some (.success ⟨20⟩) else none)).image
      = some ⟨20⟩ :=
  (set_last_request_wins ⟨0, none, none, none⟩ 1 2
      (fun t => if t = 1 then some (.success ⟨10⟩)
                else if t = 2 then some (.success ⟨20⟩) else none)
      (.success ⟨20⟩) (by rfl)).2.2

/-! ### Image-presence monotonicity -/

/-- One step of any operation preserves "the image is present and every
produced frame carries a present image". -/
theorem stepOp_preserves (e : ExecSt) (op : Op)
    (h1 : e.st.image.isSome) (h2 : ∀ f ∈ e.frames, f.image.isSome) :
    (stepOp e op).st.image.isSome ∧ ∀ f ∈ (stepOp e op).frames, f.image.isSome := by
  cases op with
  | setOp tid => exact ⟨h1, h2⟩
  | runOp env area size =>
    refine ⟨check_image_isSome env h1, ?_⟩
    intro f hf
    simp only [stepOp, WallpaperState.run, List.mem_cons] at hf
    rcases hf with rfl | hf
    · exact check_image_isSome env h1
    · exact h2 f hf
  | drawOp r gf =>
    cases hfr : e.frames with
    | nil => simp only [stepOp, hfr]; exact ⟨h1, by simp⟩
    | cons f0 rest =>
      simp only [stepOp, hfr]
      exact ⟨h1, by rw [← hfr]; exact h2⟩

/-- C10: Once the image is present, any sequence of operations (requestLoad,
produceFrame, draw) leaves it present — the image field never returns to
absent — and every Frame Snapshot produced along the way carries a present
image. -/
theorem execOps_image_present (s : WallpaperState) (ops : List Op)
    (h : s.image.isSome) :
    (execOps s ops).st.image.isSome ∧
      ∀ f ∈ (execOps s ops).frames, f.image.isSome := by
  suffices H : ∀ e : ExecSt, e.st.image.isSome → (∀ f ∈ e.frames, f.image.isSome) →
      (ops.foldl stepOp e).st.image.isSome ∧
        ∀ f ∈ (ops.foldl stepOp e).frames, f.image.isSome by
    exact H ⟨s, []⟩ h (by simp)
  induction ops with
  | nil => intro e h1 h2; exact ⟨h1, h2⟩
  | cons op rest ih =>
    intro e h1 h2
    obtain ⟨h1', h2'⟩ := stepOp_preserves e op h1 h2
    exact ih (stepOp e op) h1' h2'

/-- Witness for C10: a container holding image 3 runs a load request, a
produceFrame poll (task still running) and a draw; the image stays
present. -/
theorem execOps_image_present_witness :
    (execOps ⟨0, none, some ⟨3⟩, none⟩
        [Op.setOp 4,
         Op.runOp (fun _ => none) ⟨0, 0, 8, 8⟩ ⟨8, 8⟩,
         Op.drawOp ⟨fun i _ => .ok ⟨i.data⟩⟩ ⟨fun _ => .ok ()⟩]).st.image.isSome :=
  (execOps_image_present ⟨0, none, some ⟨3⟩, none⟩
      [Op.setOp 4,
       Op.runOp (fun _ => none) ⟨0, 0, 8, 8⟩ ⟨8, 8⟩,
       Op.drawOp ⟨fun i _ => .ok ⟨i.data⟩⟩ ⟨fun _ => .ok ()⟩] (by rfl)).1

/-! ### Texture-cache and draw lemmas -/

/-- Polling never touches the texture slot (in particular, a new image does
not invalidate it). -/
theorem check_texture_eq (s : WallpaperState) (env : Nat → Option LoadResult) :
    (s.check env).texture = s.texture := by
  rcases hj : s.join with _ | tid
  · simp [WallpaperState.check, hj]
  · rcases he : env tid with _ | res
    · simp [WallpaperState.check, hj, he]
    · cases res <;> simp [WallpaperState.check, hj, he]

/-- C2: two consecutive draw calls against the same decoded image and
renderer, starting from an empty texture slot, perform exactly one GPU
upload (given that the upload succeeds): the first call uploads once and
stores the handle, the second finds the slot occupied, uploads nothing,
leaves the slot unchanged and renders the stored handle. -/
theorem draw_twice_single_upload (f : WallpaperFrame) (r : Renderer) (gf : GFrame)
    (img : DImage) (t : Texture)
    (himg : f.image = some img) (hup : r.upload img f.size = .ok t) :
    (f.draw r gf none).uploads = 1 ∧
    (f.draw r gf none).slot = some t ∧
    (f.draw r gf ((f.draw r gf none).slot)).uploads = 0 ∧
    (f.draw r gf ((f.draw r gf none).slot)).slot = (f.draw r gf none).slot ∧
    (f.draw r gf ((f.draw r gf none).slot)).rendered = some t := by
  rcases hrt : gf.renderTex t with e | u <;>
    simp [WallpaperFrame.draw, himg, hup, hrt]

/-- Witness for C2: image 1, a renderer uploading it as texture 1; the
first draw uploads once, the second reuses it. -/
theorem draw_twice_single_upload_witness :
    ((⟨0, ⟨0, 0, 2, 2⟩, ⟨2, 2⟩, some ⟨1⟩⟩ : WallpaperFrame).draw
        ⟨fun i _ => .ok ⟨i.data⟩⟩ ⟨fun _ => .ok ()⟩ none).uploads = 1 ∧
    ((⟨0, ⟨0, 0, 2, 2⟩, ⟨2, 2⟩, some ⟨1⟩⟩ : WallpaperFrame).draw
        ⟨fun i _ => .ok ⟨i.data⟩⟩ ⟨fun _ => .ok ()⟩ none).slot = some ⟨1⟩ ∧
    ((⟨0, ⟨0, 0, 2, 2⟩, ⟨2, 2⟩, some ⟨1⟩⟩ : WallpaperFrame).draw
        ⟨fun i _ => .ok ⟨i.data⟩⟩ ⟨fun _ => .ok ()⟩
        (((⟨0, ⟨0, 0, 2, 2⟩, ⟨2, 2⟩, some ⟨1⟩⟩ : WallpaperFrame).draw
            ⟨fun i _ => .ok ⟨i.data⟩⟩ ⟨fun _ => .ok ()⟩ none).slot)).uploads = 0 ∧
    ((⟨0, ⟨0, 0, 2, 2⟩, ⟨2, 2⟩, some ⟨1⟩⟩ : WallpaperFrame).draw
        ⟨fun i _ => .ok ⟨i.data⟩⟩ ⟨fun _ => .ok ()⟩
        (((⟨0, ⟨0, 0, 2, 2⟩, ⟨2, 2⟩, some ⟨1⟩⟩ : WallpaperFrame).draw
            ⟨fun i _ => .ok ⟨i.data⟩⟩ ⟨fun _ => .ok ()⟩ none).slot)).slot =
      ((⟨0, ⟨0, 0, 2, 2⟩, ⟨2, 2⟩, some ⟨1⟩⟩ : WallpaperFrame).draw
        ⟨fun i _ => .ok ⟨i.data⟩⟩ ⟨fun _ => .ok ()⟩ none).slot ∧
    ((⟨0, ⟨0, 0, 2, 2⟩, ⟨2, 2⟩, some ⟨1⟩⟩ : WallpaperFrame).draw
        ⟨fun i _ => .ok ⟨i.data⟩⟩ ⟨fun _ => .ok ()⟩
        (((⟨0, ⟨0, 0, 2, 2⟩, ⟨2, 2⟩, some ⟨1⟩⟩ : WallpaperFrame).draw
            ⟨fun i _ => .ok ⟨i.data⟩⟩ ⟨fun _ => .ok ()⟩ none).slot)).rendered = some ⟨1⟩ :=
  draw_twice_single_upload ⟨0, ⟨0, 0, 2, 2⟩, ⟨2, 2⟩, some ⟨1⟩⟩
    ⟨fun i _ => .ok ⟨i.data⟩⟩ ⟨fun _ => .ok ()⟩ ⟨1⟩ ⟨1⟩ rfl rfl

/-- C1 fails on the code: with an image present, an empty slot, and a
renderer whose upload fails, `draw` does not return the upload error to
the caller — line 148 `unwrap`s the `import_bitmap` result, so the call
panics (outcome `panicked`, which is a distinct constructor from every
error return `err e` and from `ok`). -/
theorem draw_upload_failure_counterexample :
    ((⟨0, ⟨0, 0, 2, 2⟩, ⟨2, 2⟩, some ⟨1⟩⟩ : WallpaperFrame).draw
        ⟨fun _ _ => .error ⟨3⟩⟩ ⟨fun _ => .ok ()⟩ none).outcome = .panicked ∧
    ((⟨0, ⟨0, 0, 2, 2⟩, ⟨2, 2⟩, some ⟨1⟩⟩ : WallpaperFrame).draw
        ⟨fun _ _ => .error ⟨3⟩⟩ ⟨fun _ => .ok ()⟩ none).outcome ≠ .err ⟨3⟩ ∧
    ((⟨0, ⟨0, 0, 2, 2⟩, ⟨2, 2⟩, some ⟨1⟩⟩ : WallpaperFrame).draw
        ⟨fun _ _ => .error ⟨3⟩⟩ ⟨fun _ => .ok ()⟩ none).slot = none :=
  ⟨rfl, by decide, rfl⟩

/-- C1 amended: on upload failure the slot is indeed left empty and no
texture is drawn, but the error is not returned to the caller of `draw`:
the `unwrap` panics, aborting the process, so no later draw retries. -/
theorem draw_upload_failure_panics (f : WallpaperFrame) (r : Renderer)
    (gf : GFrame) (img : DImage) (e : UploadErr)
    (himg : f.image = some img) (hup : r.upload img f.size = .error e) :
    (f.draw r gf none).outcome = .panicked ∧
    (f.draw r gf none).slot = none ∧
    (f.draw r gf none).rendered = none := by
  simp [WallpaperFrame.draw, himg, hup]

/-- Witness for C1 (amended): concrete failing upload panics. -/
theorem draw_upload_failure_panics_witness :
    ((⟨0, ⟨0, 0, 2, 2⟩, ⟨2, 2⟩, some ⟨1⟩⟩ : WallpaperFrame).draw
        ⟨fun _ _ => .error ⟨3⟩⟩ ⟨fun _ => .ok ()⟩ none).outcome = .panicked ∧
    ((⟨0, ⟨0, 0, 2, 2⟩, ⟨2, 2⟩, some ⟨1⟩⟩ : WallpaperFrame).draw
        ⟨fun _ _ => .error ⟨3⟩⟩ ⟨fun _ => .ok ()⟩ none).slot = none ∧
    ((⟨0, ⟨0, 0, 2, 2⟩, ⟨2, 2⟩, some ⟨1⟩⟩ : WallpaperFrame).draw
        ⟨fun _ _ => .error ⟨3⟩⟩ ⟨fun _ => .ok ()⟩ none).rendered = none :=
  draw_upload_failure_panics ⟨0, ⟨0, 0, 2, 2⟩, ⟨2, 2⟩, some ⟨1⟩⟩
    ⟨fun _ _ => .error ⟨3⟩⟩ ⟨fun _ => .ok ()⟩ ⟨1⟩ ⟨3⟩ rfl rfl

/-- C4 fails on the code: a container whose image 1 has cached texture 100
polls a completed load of image 2; the image is replaced but the texture
slot still holds 100 (`check` never clears it), and the next draw performs
no upload and renders the stale handle 100 — built from the old image —
even though a fresh upload of image 2 would have produced texture 2. -/
theorem image_swap_keeps_texture_counterexample :
    ((⟨0, some 9, some ⟨1⟩, some ⟨100⟩⟩ : WallpaperState).run
        (fun _ => some (.success ⟨2⟩)) ⟨0, 0, 2, 2⟩ ⟨2, 2⟩).1.image = some ⟨2⟩ ∧
    ((⟨0, some 9, some ⟨1⟩, some ⟨100⟩⟩ : WallpaperState).run
        (fun _ => some (.success ⟨2⟩)) ⟨0, 0, 2, 2⟩ ⟨2, 2⟩).1.texture = some ⟨100⟩ ∧
    (((⟨0, some 9, some ⟨1⟩, some ⟨100⟩⟩ : WallpaperState).run
          (fun _ => some (.success ⟨2⟩)) ⟨0, 0, 2, 2⟩ ⟨2, 2⟩).2.draw
        ⟨fun i _ => .ok ⟨i.data⟩⟩ ⟨fun _ => .ok ()⟩ (some ⟨100⟩)).uploads = 0 ∧
    (((⟨0, some 9, some ⟨1⟩, some ⟨100⟩⟩ : WallpaperState).run
          (fun _ => some (.success ⟨2⟩)) ⟨0, 0, 2, 2⟩ ⟨2, 2⟩).2.draw
        ⟨fun i _ => .ok ⟨i.data⟩⟩ ⟨fun _ => .ok ()⟩ (some ⟨100⟩)).rendered = some ⟨100⟩ :=
  ⟨rfl, rfl, rfl, rfl⟩

/-- C4 amended: replacing the image by a newly completed load does NOT
invalidate the cached texture: the poll leaves the texture slot untouched,
and any draw that finds the slot occupied performs no upload and reuses
the stored handle, whatever the frame's (possibly new) image is. -/
theorem image_swap_keeps_texture (s : WallpaperState)
    (env : Nat → Option LoadResult) (area : Rect) (size : Size2)
    (f : WallpaperFrame) (r : Renderer) (gf : GFrame) (t : Texture)
    (img : DImage) (himg : f.image = some img) :
    (s.run env area size).1.texture = s.texture ∧
    (f.draw r gf (some t)).uploads = 0 ∧
    (f.draw r gf (some t)).rendered = some t := by
  refine ⟨check_texture_eq s env, ?_, ?_⟩ <;>
    rcases hrt : gf.renderTex t with e | u <;>
      simp [WallpaperFrame.draw, himg, hrt]

/-- Witness for C4 (amended): the counterexample scenario instantiated. -/
theorem image_swap_keeps_texture_witness :
    ((⟨0, some 9, some ⟨1⟩, some ⟨100⟩⟩ : WallpaperState).run
        (fun _ => some (.success ⟨2⟩)) ⟨0, 0, 2, 2⟩ ⟨2, 2⟩).1.texture = some ⟨100⟩ ∧
    ((⟨9, ⟨0, 0, 2, 2⟩, ⟨2, 2⟩, some ⟨2⟩⟩ : WallpaperFrame).draw
        ⟨fun i _ => .ok ⟨i.data⟩⟩ ⟨fun _ => .ok ()⟩ (some ⟨100⟩)).uploads = 0 ∧
    ((⟨9, ⟨0, 0, 2, 2⟩, ⟨2, 2⟩, some ⟨2⟩⟩ : WallpaperFrame).draw
        ⟨fun i _ => .ok ⟨i.data⟩⟩ ⟨fun _ => .ok ()⟩ (some ⟨100⟩)).rendered = some ⟨100⟩ :=
  image_swap_keeps_texture ⟨0, some 9, some ⟨1⟩, some ⟨100⟩⟩
    (fun _ => some (.success ⟨2⟩)) ⟨0, 0, 2, 2⟩ ⟨2, 2⟩
    ⟨9, ⟨0, 0, 2, 2⟩, ⟨2, 2⟩, some ⟨2⟩⟩
    ⟨fun i _ => .ok ⟨i.data⟩⟩ ⟨fun _ => .ok ()⟩ ⟨100⟩ ⟨2⟩ rfl

/-! ### Render-element accessor lemmas -/

/-- C7 fails on the code: a container that never had an image polls a
completed successful load, so the produced frame is exactly "the frame
where a newly loaded image first becomes current" — yet
`accumulated_damage` returns the empty set (it is `vec![]` in the source),
not a non-empty one. -/
theorem accumulated_damage_counterexample :
    (⟨0, some 3, none, none⟩ : WallpaperState).image = none ∧
    ((⟨0, some 3, none, none⟩ : WallpaperState).run
        (fun _ => some (.success ⟨5⟩)) ⟨0, 0, 2, 2⟩ ⟨2, 2⟩).2.image = some ⟨5⟩ ∧
    ((⟨0, some 3, none, none⟩ : WallpaperState).run
        (fun _ => some (.success ⟨5⟩)) ⟨0, 0, 2, 2⟩ ⟨2, 2⟩).2.accumulated_damage none
      = [] :=
  ⟨rfl, rfl, rfl⟩

/-- C7 amended: `accumulated_damage` returns the empty set on every frame,
including the frame on which a newly loaded image first becomes current
(so steady-state frames correctly report no damage, but a fresh image is
never reported as damage either). -/
theorem accumulated_damage_always_empty (f : WallpaperFrame)
    (fv : Option Unit) : f.accumulated_damage fv = [] :=
  rfl

/-- C8 fails on the code: `geometry` ignores the area and size supplied to
produceFrame — two frames produced from different areas and sizes both
report the constant rectangle ((0,0),(0,0)), which differs from the frame's
actual area. -/
theorem geometry_counterexample :
    ((⟨0, none, none, none⟩ : WallpaperState).run
        (fun _ => none) ⟨1, 2, 3, 4⟩ ⟨5, 6⟩).2.area = ⟨1, 2, 3, 4⟩ ∧
    ((⟨0, none, none, none⟩ : WallpaperState).run
        (fun _ => none) ⟨1, 2, 3, 4⟩ ⟨5, 6⟩).2.geometry = ⟨0, 0, 0, 0⟩ ∧
    ((⟨0, none, none, none⟩ : WallpaperState).run
        (fun _ => none) ⟨7, 8, 9, 10⟩ ⟨11, 12⟩).2.geometry = ⟨0, 0, 0, 0⟩ ∧
    (⟨0, 0, 0, 0⟩ : Rect) ≠ ⟨1, 2, 3, 4⟩ :=
  ⟨by simp [WallpaperState.run, WallpaperState.check, Rect.toPhysical], rfl, rfl, by decide⟩

/-- C8 amended: `geometry` returns the constant rectangle with location
(0,0) and size (0,0), independent of the area and size supplied to
produceFrame. -/
theorem geometry_constant_zero (s : WallpaperState)
    (env : Nat → Option LoadResult) (area : Rect) (size : Size2) :
    ((s.run env area size).2).geometry = ⟨0, 0, 0, 0⟩ :=
  rfl

/-- C9 fails on the code: a draw error arising inside the frame's draw
operation (the quad draw fails with error 7) is returned by
`WallpaperFrame::draw`, but the Render-Element draw adaptation does not
return it: it logs the error and returns `Ok(())`. -/
theorem render_element_draw_swallows_counterexample :
    ((⟨0, ⟨0, 0, 2, 2⟩, ⟨2, 2⟩, some ⟨1⟩⟩ : WallpaperFrame).draw
        ⟨fun i _ => .ok ⟨i.data⟩⟩ ⟨fun _ => .error ⟨7⟩⟩ (some ⟨100⟩)).outcome
      = .err ⟨7⟩ ∧
    ((⟨0, ⟨0, 0, 2, 2⟩, ⟨2, 2⟩, some ⟨1⟩⟩ : WallpaperFrame).render_element_draw
        ⟨fun i _ => .ok ⟨i.data⟩⟩ ⟨fun _ => .error ⟨7⟩⟩ (some ⟨100⟩)).outcome
      = .ok ∧
    ((⟨0, ⟨0, 0, 2, 2⟩, ⟨2, 2⟩, some ⟨1⟩⟩ : WallpaperFrame).render_element_draw
        ⟨fun i _ => .ok ⟨i.data⟩⟩ ⟨fun _ => .error ⟨7⟩⟩ (some ⟨100⟩)).log
      = [⟨7⟩] :=
  ⟨rfl, rfl, rfl⟩

/-- C9 amended: a quad-draw error is returned as an error value by
`WallpaperFrame::draw`, but the Render-Element adaptation swallows it:
it passes the error to its own logger and returns `Ok(())`, leaving the
caller nothing to handle (and upload failures panic, see C1). -/
theorem render_element_draw_logs_and_returns_ok (f : WallpaperFrame)
    (r : Renderer) (gf : GFrame) (t : Texture) (img : DImage) (e : GlErr)
    (himg : f.image = some img) (hrt : gf.renderTex t = .error e) :
    (f.draw r gf (some t)).outcome = .err e ∧
    (f.render_element_draw r gf (some t)).outcome = .ok ∧
    (f.render_element_draw r gf (some t)).log = [e] := by
  have hd : f.draw r gf (some t) = ⟨some t, 0, some t, .err e⟩ := by
    simp [WallpaperFrame.draw, himg, hrt]
  exact ⟨by rw [hd], by simp [WallpaperFrame.render_element_draw, hd],
    by simp [WallpaperFrame.render_element_draw, hd]⟩

/-- Witness for C9 (amended): the counterexample scenario instantiated. -/
theorem render_element_draw_logs_and_returns_ok_witness :
    ((⟨0, ⟨0, 0, 2, 2⟩, ⟨2, 2⟩, some ⟨1⟩⟩ : WallpaperFrame).draw
        ⟨fun i _ => .ok ⟨i.data⟩⟩ ⟨fun _ => .error ⟨7⟩⟩ (some ⟨100⟩)).outcome
      = .err ⟨7⟩ ∧
    ((⟨0, ⟨0, 0, 2, 2⟩, ⟨2, 2⟩, some ⟨1⟩⟩ : WallpaperFrame).render_element_draw
        ⟨fun i _ => .ok ⟨i.data⟩⟩ ⟨fun _ => .error ⟨7⟩⟩ (some ⟨100⟩)).outcome
      = .ok ∧
    ((⟨0, ⟨0, 0, 2, 2⟩, ⟨2, 2⟩, some ⟨1⟩⟩ : WallpaperFrame).render_element_draw
        ⟨fun i _ => .ok ⟨i.data⟩⟩ ⟨fun _ => .error ⟨7⟩⟩ (some ⟨100⟩)).log
      = [⟨7⟩] :=
  render_element_draw_logs_and_returns_ok ⟨0, ⟨0, 0, 2, 2⟩, ⟨2, 2⟩, some ⟨1⟩⟩
    ⟨fun i _ => .ok ⟨i.data⟩⟩ ⟨fun _ => .error ⟨7⟩⟩ ⟨100⟩ ⟨1⟩ ⟨7⟩ rfl rfl
